import Mathlib

/-!
Shallow embedding of the overlay-suppression / ad-blocking subsystem of the
movies front-end (src/utils/adBlocker and the VideoPlayer component), together
with proofs of the stated properties.

Conventions of the embedding:
* JavaScript strings are Lean `String`s; `String.prototype.includes` is
  `strIncludes`, `toLowerCase` is `strToLower` (ASCII case map; every pattern
  in the configuration is ASCII), `parseInt` is `parseIntJS` returning
  `Option Int` (`none` models `NaN`; any comparison of `NaN` with `>` is
  `false`, modelled by `jsGT`).
* A DOM element is observed through the snapshot of the fields the code reads
  (`ElemSnapshot`): aggregated text content, computed position / z-index /
  display / visibility, className, id, and whether it has a parent.
* Process-wide function references (`window.fetch`, `XMLHttpRequest.prototype.open`,
  `document.createElement`, `window.open`) are modelled by `PrimRef`: `base` is
  the browser-provided primitive, `wrapped r` is a wrapper closure that
  captured `r` and on which the installer set the `__adBlockerOverridden`
  marker, `blockedOpen` is the VideoPlayer's window.open override (on which no
  marker is ever set).
-/

/-- `listIsPrefixOfChars pat l` : does `l` start with `pat`? -/
def listIsPrefixOfChars : List Char → List Char → Bool
  | [], _ => true
  | _ :: _, [] => false
  | a :: as, b :: bs => a == b && listIsPrefixOfChars as bs

/-- `listIsInfixOfChars pat l` : does `pat` occur contiguously inside `l`? -/
def listIsInfixOfChars (pat : List Char) : List Char → Bool
  | [] => listIsPrefixOfChars pat []
  | b :: bs => listIsPrefixOfChars pat (b :: bs) || listIsInfixOfChars pat bs

/-- JavaScript `s.includes(pat)` : substring containment. -/
def strIncludes (s pat : String) : Bool :=
  listIsInfixOfChars pat.data s.data

/-- ASCII lower-casing of one character (JS `toLowerCase` restricted to the
ASCII range, which covers every configured pattern and every character the
claims exercise). -/
def charToLower (c : Char) : Char :=
  if 65 ≤ c.toNat ∧ c.toNat ≤ 90 then Char.ofNat (c.toNat + 32) else c

/-- JavaScript `s.toLowerCase()`. -/
def strToLower (s : String) : String :=
  ⟨s.data.map charToLower⟩

/-- Value of a run of leading decimal digits. -/
def digitsToNat (l : List Char) : Nat :=
  l.foldl (fun acc c => acc * 10 + (c.toNat - 48)) 0

/-- Parse the leading decimal digits of a character list; `none` if there are
none. -/
def parseLeadingDigits (cs : List Char) : Option Nat :=
  let ds := cs.takeWhile (fun c => c.isDigit)
  if ds.isEmpty then none else some (digitsToNat ds)

/-- JavaScript `parseInt(s)` for the inputs the code meets (computed
`z-index` values: `auto` or a decimal integer, optionally signed): skip
leading whitespace, read an optional sign and leading digits; `none` models
`NaN`. -/
def parseIntJS (s : String) : Option Int :=
  let cs := s.data.dropWhile (fun c => c == ' ' || c == '\t' || c == '\n' || c == '\r')
  match cs with
  | '-' :: rest => (parseLeadingDigits rest).map (fun n => -(n : Int))
  | '+' :: rest => (parseLeadingDigits rest).map (fun n => (n : Int))
  | _ => (parseLeadingDigits cs).map (fun n => (n : Int))

/-- JavaScript `x > n` where `x` may be `NaN` (`none`): every comparison with
`NaN` is false. -/
def jsGT (x : Option Int) (n : Int) : Bool :=
  match x with
  | some v => v > n
  | none => false

/-- `parseInt(styles.zIndex || '0')` : the `|| '0'` substitutes `'0'` for an
empty (falsy) string. -/
def computedZIndex (z : String) : Option Int :=
  parseIntJS (if z == "" then "0" else z)

/-- `AD_DOMAINS` of src/utils/adBlocker. -/
def AD_DOMAINS : List String :=
  ["doubleclick.net", "googlesyndication.com", "googleadservices.com",
   "adservice.google", "adsafeprotected.com", "advertising.com", "adnxs.com",
   "adsrvr.org", "adtechus.com", "amazon-adsystem.com", "adform.net",
   "adition.com", "adzerk.net", "openx.net", "pubmatic.com",
   "rubiconproject.com", "scorecardresearch.com", "outbrain.com",
   "taboola.com", "adsystem.com", "adsrvr.com", "adserver.com",
   "adserver.net", "adserver.org", "adtech.com", "criteo.com", "media.net",
   "bidswitch.net", "casalemedia.com", "smartadserver.com"]

/-- `WHITELIST_DOMAINS` of src/utils/adBlocker. -/
def WHITELIST_DOMAINS : List String :=
  ["themoviedb.org", "image.tmdb.org", "localhost", "127.0.0.1", "vite",
   "react"]

/-- `WHITELIST_SELECTORS` of src/utils/adBlocker (app class/id fragments that
must never be blocked). -/
def WHITELIST_SELECTORS : List String :=
  ["details", "detailsContent", "detailsActions", "detailsTitle",
   "detailsMeta", "detailsOverview", "detailsPoster", "detailsText",
   "detailsContainer", "movieCard", "movieGrid", "moviePoster", "movieTitle",
   "section", "sectionHeader", "playerArea", "playerContainer",
   "playerHeader", "playerTitle", "providerList", "providerLogo",
   "watchButton", "closeButton"]

/-- `isAdDomain` of src/utils/adBlocker: empty (falsy) input is not blocked;
otherwise lower-case the URL, short-circuit to `false` on any whitelist
substring match, else report whether any ad-domain substring matches. -/
def isAdDomain (url : String) : Bool :=
  if url == "" then false
  else
    let urlLower := strToLower url
    if WHITELIST_DOMAINS.any (fun domain => strIncludes urlLower domain) then
      false
    else
      AD_DOMAINS.any (fun domain => strIncludes urlLower domain)

/-- Snapshot of the fields of a DOM element the ad-blocking code reads:
`textContent ?? ''`, computed `position`, `z-index`, `display`, `visibility`,
`className`, `id`, and whether `parentElement` is non-null. -/
structure ElemSnapshot where
  textContent : String
  position : String
  zIndex : String
  display : String
  visibility : String
  className : String
  id : String
  hasParent : Bool
deriving DecidableEq, Repr

/-- `specificAdPatterns` local to `isAdElement` in src/utils/adBlocker. -/
def specificAdPatterns : List String :=
  ["adsbygoogle", "google_ads", "ad-container", "ad-wrapper", "ad-unit",
   "advertisement", "ad-banner", "sponsored-content", "promo-banner"]

/-- `isAdElement` of src/utils/adBlocker: lower-case className and id, exempt
the element on any `WHITELIST_SELECTORS` substring match, otherwise flag it
exactly when one of the specific ad class/id patterns occurs. -/
def isAdElement (el : ElemSnapshot) : Bool :=
  let className := strToLower el.className
  let id := strToLower el.id
  let isWhitelisted := WHITELIST_SELECTORS.any
    (fun whitelist => strIncludes className whitelist || strIncludes id whitelist)
  if isWhitelisted then false
  else
    specificAdPatterns.any
      (fun pattern => strIncludes className pattern || strIncludes id pattern)

/-- The whitelist test of `isAdElement` / `isWhitelistedElement` (same
condition in both functions of src/utils/adBlocker). -/
def isWhitelistedElement (el : ElemSnapshot) : Bool :=
  WHITELIST_SELECTORS.any
    (fun whitelist =>
      strIncludes (strToLower el.className) whitelist ||
      strIncludes (strToLower el.id) whitelist)

/-- The keyword disjunction of `startAggressiveOverlayRemoval` (src/utils/adBlocker),
minus its final conjunctive clause, in source order. -/
def AGGRESSIVE_TEXT_SIGNALS : List String :=
  ["ad block wonder", "adblock wonder", "blocks ads, crushes pop-ups",
   "we silence the noise", "take out the trash", "install", "opera",
   "download", "continue", "browser", "extension", "chrome web store",
   "ad block", "adblock", "privacy policy", "advertisement", "sponsored",
   "click here", "watch now", "skip ad"]

/-- The text test of `startAggressiveOverlayRemoval`: any plain keyword, or
the conjunctive clause `blocks ads && pop-ups`. `text` is already
lower-cased by the caller. -/
def aggressiveTextMatch (text : String) : Bool :=
  AGGRESSIVE_TEXT_SIGNALS.any (fun signal => strIncludes text signal) ||
  (strIncludes text "blocks ads" && strIncludes text "pop-ups")

/-- Per-element decision of the `startAggressiveOverlayRemoval` interval body
(src/utils/adBlocker): remove exactly when `parseInt(zIndex || '0') > 100`,
position is `fixed` or `absolute`, `display` is not `none`, and the
lower-cased text content matches a configured keyword. -/
def aggressiveRemoveDecision (el : ElemSnapshot) : Bool :=
  let zIndex := computedZIndex el.zIndex
  let position := el.position
  let display := el.display
  if jsGT zIndex 100 && (position == "fixed" || position == "absolute") &&
      display != "none" then
    aggressiveTextMatch (strToLower el.textContent)
  else
    false

/-- One pass of the aggressive interval over the elements of the document:
the surviving elements. -/
def aggressiveSweepOnce (doc : List ElemSnapshot) : List ElemSnapshot :=
  doc.filter (fun el => !(aggressiveRemoveDecision el))

/-- The `isAdBlockWonder` text test of `removePopups`
(src/Components/VideoPlayer/VideoPlayer.tsx). `text` is already lower-cased. -/
def isAdBlockWonderText (text : String) : Bool :=
  strIncludes text "ad block wonder" ||
  strIncludes text "adblock wonder" ||
  strIncludes text "blocks ads, crushes pop-ups" ||
  strIncludes text "browse the web without interruptions" ||
  strIncludes text "we silence the noise" ||
  strIncludes text "take out the trash" ||
  (strIncludes text "blocks ads" && strIncludes text "pop-ups") ||
  (strIncludes text "chrome web store" && strIncludes text "extension")

/-- Per-element decision of `removePopups` (VideoPlayer.tsx): skip detached or
hidden elements; remove an "Ad Block Wonder" match that is a fixed/absolute
overlay (z-index above 100 or more than 20 characters of text); otherwise
remove on the secondary ad-text patterns when fixed/absolute. -/
def removePopupsDecision (el : ElemSnapshot) : Bool :=
  if !el.hasParent then false
  else
    let text := strToLower el.textContent
    let position := el.position
    let zIndex := computedZIndex el.zIndex
    let display := el.display
    let visibility := el.visibility
    if display == "none" || visibility == "hidden" then false
    else
      let isAdBlockWonder := isAdBlockWonderText text
      let isOverlay :=
        (position == "fixed" || position == "absolute") &&
        (jsGT zIndex 100 || text.length > 20)
      if isAdBlockWonder && isOverlay then true
      else if (strIncludes text "continue" && strIncludes text "extension") ||
          (strIncludes text "install" &&
            (strIncludes text "browser" || strIncludes text "extension")) ||
          (strIncludes text "advertisement" && position != "static") ||
          (strIncludes text "sponsored" && jsGT zIndex 50) then
        position == "fixed" || position == "absolute"
      else false

/-- One synchronous pass of `removePopups` over the elements of the document:
the surviving elements. -/
def removePopupsSweepOnce (doc : List ElemSnapshot) : List ElemSnapshot :=
  doc.filter (fun el => !(removePopupsDecision el))

/-- A process-wide function reference. `base` is the browser primitive;
`wrapped r` is a wrapper closure over `r` installed by the ad blocker, which
sets `__adBlockerOverridden = true` on it immediately after assignment;
`blockedOpen` is the VideoPlayer's window.open override, a fresh closure on
which no marker is ever set. -/
inductive PrimRef where
  | base : PrimRef
  | wrapped : PrimRef → PrimRef
  | blockedOpen : PrimRef
deriving DecidableEq, Repr

/-- The `__adBlockerOverridden` marker test: true exactly on the wrappers the
installer produced (it assigns the property right after each assignment). -/
def hasAdBlockerMarker : PrimRef → Bool
  | .wrapped _ => true
  | .base => false
  | .blockedOpen => false

/-- The four monkey-patchable global function slots. -/
structure Globals where
  fetchRef : PrimRef
  xhrOpenRef : PrimRef
  createElementRef : PrimRef
  windowOpenRef : PrimRef
deriving DecidableEq, Repr

/-- Page-load state: every slot still holds the browser primitive. -/
def Globals.init : Globals :=
  { fetchRef := .base, xhrOpenRef := .base, createElementRef := .base,
    windowOpenRef := .base }

/-- `blockAdScripts` of src/utils/adBlocker: captures `document.createElement`
and replaces it with a wrapper, with no marker check before wrapping. -/
def blockAdScripts (g : Globals) : Globals :=
  { g with createElementRef := .wrapped g.createElementRef }

/-- `blockAdRequests` of src/utils/adBlocker: wraps `window.fetch` and
`XMLHttpRequest.prototype.open`, each guarded by a check of the
`__adBlockerOverridden` marker on the current value. -/
def blockAdRequests (g : Globals) : Globals :=
  let g1 :=
    if hasAdBlockerMarker g.fetchRef then g
    else { g with fetchRef := .wrapped g.fetchRef }
  if hasAdBlockerMarker g1.xhrOpenRef then g1
  else { g1 with xhrOpenRef := .wrapped g1.xhrOpenRef }

/-- `initAdBlocker` of src/utils/adBlocker, restricted to its effect on the
global function slots: `blockAdScripts()` then `blockAdRequests()`
(`removeAdElements` and `observeAdElements` touch only the DOM). -/
def initAdBlocker (g : Globals) : Globals :=
  blockAdRequests (blockAdScripts g)

/-- The running module state: the globals plus the `adBlockerEnabled` flag. -/
structure AdBlockerState where
  globals : Globals
  adBlockerEnabled : Bool
deriving DecidableEq, Repr

/-- `disableAdBlocker` of src/utils/adBlocker: sets the flag to false and
nothing else (the source comments that it cannot fully disable without a
reload). -/
def disableAdBlocker (s : AdBlockerState) : AdBlockerState :=
  { s with adBlockerEnabled := false }

/-- The install half of the VideoPlayer popup-blocking effect
(VideoPlayer.tsx): capture `originalWindowOpen = window.open` and assign the
blocking override; returns the new globals and the captured reference. -/
def installPopupOverride (g : Globals) : Globals × PrimRef :=
  ({ g with windowOpenRef := .blockedOpen }, g.windowOpenRef)

/-- The cleanup half of the VideoPlayer popup-blocking effect:
`window.open = originalWindowOpen`. -/
def cleanupPopupOverride (saved : PrimRef) (g : Globals) : Globals :=
  { g with windowOpenRef := saved }

/-- One full guard session as the code runs it: app startup installs the
network guards (`initAdBlocker`), opening the player installs the popup
override, closing the player runs the override's cleanup, and
`disableAdBlocker` is the only teardown the network guards have. Returns the
final globals. -/
def sessionRoundTrip (g : Globals) : Globals :=
  let g1 := initAdBlocker g
  let (g2, savedOpen) := installPopupOverride g1
  let g3 := cleanupPopupOverride savedOpen g2
  (disableAdBlocker { globals := g3, adBlockerEnabled := true }).globals

/-- The argument of a fetch call (`RequestInfo | URL`), carrying the URL the
wrapper extracts: a plain string, a `URL` object (the wrapper reads `.href`),
or a `Request` object (the wrapper reads `.url`). -/
inductive FetchInput where
  | str : String → FetchInput
  | urlObj : String → FetchInput
  | request : String → FetchInput
deriving DecidableEq, Repr

/-- The URL the fetch wrapper computes from its first argument
(`typeof input === 'string' ? input : input instanceof URL ? input.href :
input.url`). -/
def effectiveUrl : FetchInput → String
  | .str s => s
  | .urlObj href => href
  | .request url => url

/-- Log of the calls made to the original fetch primitive. -/
structure FetchLog (β : Type) where
  origCalls : List (FetchInput × Option β)
deriving Repr

/-- The fetch wrapper installed by `blockAdRequests`: on a blocked URL it
rejects with `Error('Ad blocked')` without invoking the original; otherwise
it delegates to `originalFetch` with both arguments unchanged and returns its
result. The log records each invocation of the original primitive. -/
def wrappedFetch {α β : Type} (originalFetch : FetchInput → Option β → α)
    (input : FetchInput) (init : Option β) (log : FetchLog β) :
    Except String α × FetchLog β :=
  let url := effectiveUrl input
  if isAdDomain url then
    (Except.error "Ad blocked", log)
  else
    (Except.ok (originalFetch input init),
     { origCalls := log.origCalls ++ [(input, init)] })

/-- What `window.open` currently does: the browser original creates a window,
the VideoPlayer override creates nothing and returns null. -/
inductive OpenImpl where
  | original : OpenImpl
  | blocked : OpenImpl
deriving DecidableEq, Repr

/-- The observable window system: the current `window.open` binding and how
many real windows exist. -/
structure WindowSys where
  openImpl : OpenImpl
  createdWindows : Nat
deriving DecidableEq, Repr

/-- Calling `window.open(url)`: the original primitive creates a fresh window
and returns its handle; the override logs and returns null, creating
nothing. -/
def callWindowOpen (w : WindowSys) : Option Nat × WindowSys :=
  match w.openImpl with
  | .original => (some w.createdWindows, { w with createdWindows := w.createdWindows + 1 })
  | .blocked => (none, w)

/-- Behavioural install of the popup guard: capture the current binding,
assign the blocking override. -/
def installPopupGuardW (w : WindowSys) : WindowSys × OpenImpl :=
  ({ w with openImpl := .blocked }, w.openImpl)

/-- Behavioural teardown of the popup guard: restore the captured binding. -/
def teardownPopupGuardW (saved : OpenImpl) (w : WindowSys) : WindowSys :=
  { w with openImpl := saved }

/-- The per-session state the VideoPlayer keeps for popup defense:
`popupWindowsRef.current` (tracked popup handles) and the effect-local
`clickCount`. -/
structure PlayerSession where
  popupWindows : List Nat
  clickCount : Nat
deriving DecidableEq, Repr

/-- Session state when the player opens: `useRef<Window[]>([])` and
`let clickCount = 0`. -/
def initPlayerSession : PlayerSession :=
  { popupWindows := [], clickCount := 0 }

/-- `closeAllPopups` of VideoPlayer.tsx: `close()` every tracked handle (the
returned list), then reset `popupWindowsRef.current` to `[]`. -/
def closeAllPopups (s : PlayerSession) : PlayerSession × List Nat :=
  ({ s with popupWindows := [] }, s.popupWindows)

/-- The VideoPlayer `window.open` override: log, return null, and in
particular never append to `popupWindowsRef.current`. -/
def sessionWindowOpen (s : PlayerSession) : Option Nat × PlayerSession :=
  (none, s)

/-- `handleWrapperClick` of VideoPlayer.tsx: increment the click counter and,
on the first click only, run the delayed `closeAllPopups` sweep. -/
def handleWrapperClick (s : PlayerSession) : PlayerSession × List Nat :=
  let s1 := { s with clickCount := s.clickCount + 1 }
  if s1.clickCount == 1 then closeAllPopups s1 else (s1, [])

/-- The session-affecting events of a player session. -/
inductive SessionEvent where
  | openCall : String → SessionEvent
  | wrapperClick : SessionEvent
  | fullscreenEnter : SessionEvent
  | serverChange : SessionEvent
  | playerClose : SessionEvent
deriving DecidableEq, Repr

/-- One event step of a player session, returning the new state and the
handles force-closed by that step: a `window.open` call hits the override;
the first wrapper click, a fullscreen entry (`handleFullscreenChange`), a
provider switch (`handleServerChange`), and the close button (`handleClose`)
all run `closeAllPopups`. -/
def stepSession (s : PlayerSession) : SessionEvent → PlayerSession × List Nat
  | .openCall _ => ((sessionWindowOpen s).2, [])
  | .wrapperClick => handleWrapperClick s
  | .fullscreenEnter => closeAllPopups s
  | .serverChange => closeAllPopups s
  | .playerClose => closeAllPopups s

/-- Run a whole session: fold the events, accumulating every handle any step
force-closed. -/
def runSession : PlayerSession → List SessionEvent → PlayerSession × List Nat
  | s, [] => (s, [])
  | s, e :: es =>
    let (s1, closed1) := stepSession s e
    let (s2, closed2) := runSession s1 es
    (s2, closed1 ++ closed2)

theorem blockAdRequests_fetch_marked (g : Globals) :
    hasAdBlockerMarker (blockAdRequests g).fetchRef = true := by
  unfold blockAdRequests
  dsimp only
  split <;> split <;> simp_all [hasAdBlockerMarker]

theorem blockAdRequests_xhr_marked (g : Globals) :
    hasAdBlockerMarker (blockAdRequests g).xhrOpenRef = true := by
  unfold blockAdRequests
  dsimp only
  split <;> split <;> simp_all [hasAdBlockerMarker]

theorem blockAdRequests_of_marked (g : Globals)
    (hf : hasAdBlockerMarker g.fetchRef = true)
    (hx : hasAdBlockerMarker g.xhrOpenRef = true) :
    blockAdRequests g = g := by
  unfold blockAdRequests
  simp [hf, hx]

theorem blockAdRequests_windowOpen (g : Globals) :
    (blockAdRequests g).windowOpenRef = g.windowOpenRef := by
  unfold blockAdRequests
  dsimp only
  split <;> split <;> rfl

theorem runSession_empty_inv (evs : List SessionEvent) :
    ∀ s : PlayerSession, s.popupWindows = [] →
      (runSession s evs).1.popupWindows = [] ∧ (runSession s evs).2 = [] := by
  induction evs with
  | nil => exact fun s h => ⟨h, rfl⟩
  | cons e es ih =>
    intro s h
    have hstep : (stepSession s e).1.popupWindows = [] ∧ (stepSession s e).2 = [] := by
      cases e with
      | openCall url => simp [stepSession, sessionWindowOpen, h]
      | wrapperClick =>
        simp only [stepSession, handleWrapperClick, closeAllPopups]
        split <;> simp [h]
      | fullscreenEnter => simp [stepSession, closeAllPopups, h]
      | serverChange => simp [stepSession, closeAllPopups, h]
      | playerClose => simp [stepSession, closeAllPopups, h]
    have := ih (stepSession s e).1 hstep.1
    simp [runSession, this.1, this.2, hstep.2]

/-- C4: a URL matching at least one allow-list pattern (case-insensitive
substring) is classified as not blocked by `isAdDomain`, regardless of any
block-list matches. -/
theorem allowlist_precedence (url : String)
    (h : WHITELIST_DOMAINS.any (fun domain => strIncludes (strToLower url) domain) = true) :
    isAdDomain url = false := by
  unfold isAdDomain
  split
  · rfl
  · simp [h]

/-- Witness for C4: a URL that matches the allow-list pattern
`themoviedb.org` and also the block-list pattern `doubleclick.net` is not
blocked. -/
theorem allowlist_precedence_witness :
    isAdDomain "https://doubleclick.net/ad?ref=themoviedb.org" = false ∧
    AD_DOMAINS.any
      (fun domain =>
        strIncludes (strToLower "https://doubleclick.net/ad?ref=themoviedb.org") domain) = true :=
  ⟨allowlist_precedence "https://doubleclick.net/ad?ref=themoviedb.org" (by decide),
   by decide⟩

/-- C5: `isAdDomain` returns false on the empty string and on every URL that
matches neither an allow-list nor a block-list pattern (fail-open default). -/
theorem fail_open_default (url : String)
    (hw : WHITELIST_DOMAINS.any (fun domain => strIncludes (strToLower url) domain) = false)
    (hb : AD_DOMAINS.any (fun domain => strIncludes (strToLower url) domain) = false) :
    isAdDomain "" = false ∧ isAdDomain url = false := by
  refine ⟨by decide, ?_⟩
  unfold isAdDomain
  split
  · rfl
  · simp [hw, hb]

/-- Witness for C5: a URL matching no configured pattern is not blocked. -/
theorem fail_open_default_witness :
    isAdDomain "" = false ∧ isAdDomain "https://example.com/page" = false :=
  fail_open_default "https://example.com/page" (by decide) (by decide)

/-- C6: while the guards are installed, a fetch call whose effective URL is
blocked rejects with the `Ad blocked` error and the original primitive is
never invoked (the call log is unchanged); a call whose URL is not blocked is
delegated to the original primitive with both arguments unchanged (the log
gains exactly that call) and the original's return value is returned. -/
theorem fetch_guard_blocks_or_delegates {α β : Type}
    (originalFetch : FetchInput → Option β → α)
    (input : FetchInput) (init : Option β) (log : FetchLog β) :
    ((wrappedFetch originalFetch input init log).2.origCalls =
      if isAdDomain (effectiveUrl input) then log.origCalls
      else log.origCalls ++ [(input, init)]) ∧
    ((wrappedFetch originalFetch input init log).1 =
      if isAdDomain (effectiveUrl input) then Except.error "Ad blocked"
      else Except.ok (originalFetch input init)) := by
  rcases Bool.eq_false_or_eq_true (isAdDomain (effectiveUrl input)) with h | h <;>
    simp [wrappedFetch, h]

/-- C7: with the popup guard installed, every call to the window-opening
primitive returns a null handle and creates no window; tearing the guard down
with the captured reference restores the window system exactly, so a call
after teardown behaves as the unmodified original. -/
theorem popup_guard_veto_and_restore (w : WindowSys) :
    (callWindowOpen (installPopupGuardW w).1).1 = none ∧
    (callWindowOpen (installPopupGuardW w).1).2.createdWindows = w.createdWindows ∧
    teardownPopupGuardW (installPopupGuardW w).2 (installPopupGuardW w).1 = w ∧
    callWindowOpen (teardownPopupGuardW (installPopupGuardW w).2 (installPopupGuardW w).1) =
      callWindowOpen w :=
  ⟨rfl, rfl, rfl, rfl⟩

/-- C9: throughout a player session, the tracked-popup-handle list stays
empty (the window.open override returns null without recording a handle and
no event appends to it), so the force-close sweeps never close any window. -/
theorem popup_list_always_empty (evs : List SessionEvent) :
    (runSession initPlayerSession evs).1.popupWindows = [] ∧
    (runSession initPlayerSession evs).2 = [] :=
  runSession_empty_inv evs initPlayerSession rfl

/-- C10: the aggressive periodic sweep never removes an element whose
computed z-index is non-numeric (`parseInt` gives `NaN`), or is at most 100,
or whose position is neither `fixed` nor `absolute`, whatever its text. -/
theorem aggressive_sweep_safety (el : ElemSnapshot)
    (h : computedZIndex el.zIndex = none ∨
         (∃ n, computedZIndex el.zIndex = some n ∧ n ≤ 100) ∨
         (el.position ≠ "fixed" ∧ el.position ≠ "absolute")) :
    aggressiveRemoveDecision el = false := by
  unfold aggressiveRemoveDecision
  dsimp only
  rcases h with h | ⟨n, hn, hle⟩ | ⟨h1, h2⟩
  · simp [h, jsGT]
  · have : jsGT (computedZIndex el.zIndex) 100 = false := by
      simp [hn, jsGT]
      omega
    simp [this]
  · have e1 : (el.position == "fixed") = false := by
      simpa using h1
    have e2 : (el.position == "absolute") = false := by
      simpa using h2
    simp [e1, e2]

/-- Witness for C10: a fixed-position element with z-index `auto` and ad-like
text is not removed by the aggressive sweep. -/
theorem aggressive_sweep_safety_witness :
    aggressiveRemoveDecision
      { textContent := "install this extension", position := "fixed",
        zIndex := "auto", display := "block", visibility := "visible",
        className := "", id := "", hasParent := true } = false :=
  aggressive_sweep_safety _ (Or.inl (by decide))

/-- C8: a visible element with computed position `fixed`, z-index `10000`,
text content "Ad Block Wonder — browse the web without interruptions", and no
allow-listed class/id fragment, is removed by a single `removePopups` pass. -/
theorem adBlockWonder_removed_by_sweep (el : ElemSnapshot) (doc : List ElemSnapshot)
    (htext : el.textContent = "Ad Block Wonder — browse the web without interruptions")
    (hpos : el.position = "fixed")
    (hz : el.zIndex = "10000")
    (hdisp : el.display ≠ "none")
    (hvis : el.visibility ≠ "hidden")
    (hparent : el.hasParent = true)
    (_hwl : isWhitelistedElement el = false) :
    removePopupsDecision el = true ∧ el ∉ removePopupsSweepOnce doc := by
  have hd : (el.display == "none") = false := by simpa using hdisp
  have hv : (el.visibility == "hidden") = false := by simpa using hvis
  have hdec : removePopupsDecision el = true := by
    unfold removePopupsDecision
    rw [hparent, htext, hpos, hz]
    simp only [hd, hv]
    decide
  refine ⟨hdec, fun hmem => ?_⟩
  simp only [removePopupsSweepOnce, List.mem_filter] at hmem
  simp [hdec] at hmem

/-- Witness for C8: the concrete overlay element is classified for removal
and does not survive a sweep of the one-element document. -/
theorem adBlockWonder_removed_by_sweep_witness :
    removePopupsDecision
      { textContent := "Ad Block Wonder — browse the web without interruptions",
        position := "fixed", zIndex := "10000", display := "block",
        visibility := "visible", className := "promo", id := "",
        hasParent := true } = true ∧
    ({ textContent := "Ad Block Wonder — browse the web without interruptions",
       position := "fixed", zIndex := "10000", display := "block",
       visibility := "visible", className := "promo", id := "",
       hasParent := true } : ElemSnapshot) ∉
      removePopupsSweepOnce
        [{ textContent := "Ad Block Wonder — browse the web without interruptions",
           position := "fixed", zIndex := "10000", display := "block",
           visibility := "visible", className := "promo", id := "",
           hasParent := true }] :=
  adBlockWonder_removed_by_sweep _ _ rfl rfl rfl (by decide) (by decide) rfl
    (by decide)

/-- C1 counterexample: an element whose className is exactly the allow-listed
fragment `watchButton`, with ad-keyword text, fixed position and z-index
10000, is removed by the aggressive overlay sweep, which never consults the
allow-list. -/
theorem whitelisted_element_removed_by_aggressive_sweep :
    "watchButton" ∈ WHITELIST_SELECTORS ∧
    strIncludes "watchButton" "watchButton" = true ∧
    aggressiveRemoveDecision
      { textContent := "install", position := "fixed", zIndex := "10000",
        display := "block", visibility := "visible",
        className := "watchButton", id := "", hasParent := true } = true ∧
    aggressiveSweepOnce
      [{ textContent := "install", position := "fixed", zIndex := "10000",
         display := "block", visibility := "visible",
         className := "watchButton", id := "", hasParent := true }] = [] :=
  ⟨by decide, by decide, by decide, by decide⟩

/-- C1 (amended): an element whose lower-cased class or id matches an
allow-listed fragment is never classified as an ad by `isAdElement`, so the
`isAdElement`-gated sweeps never remove it; the aggressive interval sweep,
however, does not consult the allow-list. -/
theorem whitelist_match_never_adElement (el : ElemSnapshot)
    (h : isWhitelistedElement el = true) :
    isAdElement el = false := by
  unfold isWhitelistedElement at h
  simp [isAdElement, h]

/-- Witness for C1 (amended): the app's `detailsContent` element is
allow-listed and not flagged by `isAdElement`. -/
theorem whitelist_match_never_adElement_witness :
    isWhitelistedElement
      { textContent := "", position := "static", zIndex := "auto",
        display := "block", visibility := "visible",
        className := "detailsContent", id := "", hasParent := true } = true ∧
    isAdElement
      { textContent := "", position := "static", zIndex := "auto",
        display := "block", visibility := "visible",
        className := "detailsContent", id := "", hasParent := true } = false :=
  ⟨by decide, whitelist_match_never_adElement _ (by decide)⟩

/-- C2 counterexample: after installing the guards and running the teardown
path from the page-load state, the fetch slot does not hold its pre-install
reference (`disableAdBlocker` only clears a flag). -/
theorem fetch_not_restored_after_teardown :
    (sessionRoundTrip Globals.init).fetchRef ≠ Globals.init.fetchRef := by
  decide

/-- C2 (amended): the teardown path restores only the window-open primitive
to its pre-install reference; fetch, XHR-open and element-creation remain
wrapped after the session. -/
theorem teardown_restores_only_windowOpen (g : Globals) :
    (sessionRoundTrip g).windowOpenRef = g.windowOpenRef ∧
    (sessionRoundTrip Globals.init).fetchRef = PrimRef.wrapped PrimRef.base ∧
    (sessionRoundTrip Globals.init).xhrOpenRef = PrimRef.wrapped PrimRef.base ∧
    (sessionRoundTrip Globals.init).createElementRef = PrimRef.wrapped PrimRef.base := by
  refine ⟨?_, by decide, by decide, by decide⟩
  show (initAdBlocker g).windowOpenRef = g.windowOpenRef
  unfold initAdBlocker
  rw [blockAdRequests_windowOpen]
  rfl

/-- C3 counterexample: two installs in a row leave two wrapper layers on the
element-creation primitive (`blockAdScripts` has no marker check), not one. -/
theorem double_install_double_wraps_createElement :
    (initAdBlocker (initAdBlocker Globals.init)).createElementRef =
      PrimRef.wrapped (PrimRef.wrapped PrimRef.base) ∧
    (initAdBlocker (initAdBlocker Globals.init)).createElementRef ≠
      (initAdBlocker Globals.init).createElementRef :=
  ⟨by decide, by decide⟩

/-- C3 (amended): a second install leaves the fetch and XHR-open wrappers
untouched (their markers are detected) but adds exactly one more wrapper
layer around the element-creation primitive. -/
theorem double_install_wrap_layers (g : Globals) :
    initAdBlocker (initAdBlocker g) =
      { initAdBlocker g with
        createElementRef := PrimRef.wrapped (initAdBlocker g).createElementRef } := by
  have hf : hasAdBlockerMarker (blockAdScripts (initAdBlocker g)).fetchRef = true := by
    show hasAdBlockerMarker (blockAdRequests (blockAdScripts g)).fetchRef = true
    exact blockAdRequests_fetch_marked _
  have hx : hasAdBlockerMarker (blockAdScripts (initAdBlocker g)).xhrOpenRef = true := by
    show hasAdBlockerMarker (blockAdRequests (blockAdScripts g)).xhrOpenRef = true
    exact blockAdRequests_xhr_marked _
  show blockAdRequests (blockAdScripts (initAdBlocker g)) = _
  rw [blockAdRequests_of_marked _ hf hx]
  rfl
